import Mathlib

/-!
Shallow embedding of the git-status report parser from `src/status.rs`
(`Status`, `Entry`, and their `TryFrom<&str>` implementations), together
with theorems settling the specification claims about it.

Lines of input are modelled as `List Char`; `String`-typed fields of the
Rust structs stay `String` (built with `String.mk`).  Rust's fallible
parse is an `Except ParseErr` value; the distinct `bail!`/`format_err!`
sites get distinct error constructors, and the (unreachable)
`copy_from_slice` length-mismatch panic is modelled by `ParseErr.panicked`.
-/

/-- Error outcomes of the parser.  `malformed` is the `format_err!("bad
status format")` / `format_err!("bad entry format")` error; `unknownInfo`
is `bail!("unknown branch info ...")`; `unknownMarker` is
`bail!("unknown line prefix in: ...")`; `badFormat` is `bail!("unknown
entry format identifier ...")`; `panicked` marks the
`copy_from_slice` length-mismatch panic. -/
inductive ParseErr where
  | malformed
  | unknownInfo
  | unknownMarker
  | badFormat
  | panicked
deriving DecidableEq, Repr

/-- Rust `char::is_whitespace` (Unicode `White_Space`). -/
def rsIsWhitespace (c : Char) : Bool :=
  c.toNat = 0x09 || c.toNat = 0x0A || c.toNat = 0x0B || c.toNat = 0x0C ||
  c.toNat = 0x0D || c.toNat = 0x20 || c.toNat = 0x85 || c.toNat = 0xA0 ||
  c.toNat = 0x1680 || (0x2000 ≤ c.toNat && c.toNat ≤ 0x200A) ||
  c.toNat = 0x2028 || c.toNat = 0x2029 || c.toNat = 0x202F ||
  c.toNat = 0x205F || c.toNat = 0x3000

/-- `chars.next()` on a char iterator: the head and the rest. -/
def nextc : List Char → Except ParseErr (Char × List Char)
  | [] => .error .malformed
  | c :: cs => .ok (c, cs)

/-- `(&mut chars).take(2).collect_tuple()` — exactly two chars or failure. -/
def take2 : List Char → Except ParseErr ((Char × Char) × List Char)
  | c1 :: c2 :: cs => .ok ((c1, c2), cs)
  | _ => .error .malformed

/-- `(&mut chars).take(4).collect_tuple()` — exactly four chars or failure. -/
def take4 : List Char → Except ParseErr ((Char × Char × Char × Char) × List Char)
  | c1 :: c2 :: c3 :: c4 :: cs => .ok ((c1, c2, c3, c4), cs)
  | _ => .error .malformed

/-- Rust `take_while(|c| !c.is_whitespace())` on a `Chars` iterator: collects
the maximal non-whitespace prefix and, like Rust's `take_while`, also
consumes the first failing (whitespace) character from the iterator. -/
def takeNonWS : List Char → List Char × List Char
  | [] => ([], [])
  | c :: cs =>
    if rsIsWhitespace c then ([], cs)
    else
      let p := takeNonWS cs
      (c :: p.1, p.2)

/-- The `take(6)`-collect / `next()`-check / `copy_from_slice` sequence used
for every six-character file mode: take up to six chars, require one more
char (the separator, value unchecked), then copy — a length mismatch in
the copy would panic. -/
def takeMode (cs : List Char) : Except ParseErr (List Char × List Char) :=
  let fm := cs.take 6
  match nextc (cs.drop 6) with
  | .error e => .error e
  | .ok (_, cs') =>
    if fm.length = 6 then .ok (fm, cs') else .error .panicked

/-- `value.strip` of the optional leading `+` sign accepted by Rust's
unsigned `FromStr`. -/
def stripPlus : List Char → List Char
  | [] => []
  | c :: cs => if c = '+' then cs else c :: cs

/-- Value of a list of decimal digits. -/
def digitsVal (ds : List Char) : Nat :=
  ds.foldl (fun acc c => acc * 10 + (c.toNat - '0'.toNat)) 0

/-- Rust `str::parse` for an unsigned integer type with maximum value
`bound`: optional `+`, then one or more ASCII digits, value within bound;
anything else is an error. -/
def rsParseUInt (bound : Nat) (s : List Char) : Option Nat :=
  let ds := stripPlus s
  if ds.isEmpty then none
  else if ds.all Char.isDigit then
    if digitsVal ds ≤ bound then some (digitsVal ds) else none
  else none

/-- `str::parse::<u8>()`. -/
def rsParseU8 (s : List Char) : Option Nat := rsParseUInt 255 s

/-- `str::parse::<u32>()`. -/
def rsParseU32 (s : List Char) : Option Nat := rsParseUInt 4294967295 s

/-- One trailing carriage return stripped (used by `str::lines` on pieces
terminated by a newline). -/
def stripCR (l : List Char) : List Char :=
  if l.getLast? = some '\r' then l.dropLast else l

/-- Worker for `rsLines`: `acc` holds the current line reversed. -/
def rsLinesAux (acc : List Char) : List Char → List (List Char)
  | [] => if acc.isEmpty then [] else [acc.reverse]
  | c :: rest =>
    if c = '\n' then stripCR acc.reverse :: rsLinesAux [] rest
    else rsLinesAux (c :: acc) rest

/-- Rust `str::lines()`: split at `\n`, strip a `\r` preceding a `\n`,
no trailing empty line for a trailing newline. -/
def rsLines (txt : List Char) : List (List Char) := rsLinesAux [] txt

/-- A single entry from git status output (`struct Entry`).  Defaults are
the Rust `Default` values (`char::default()` is the NUL character). -/
structure Entry where
  format : Char := Char.ofNat 0
  status : Char × Char := (Char.ofNat 0, Char.ofNat 0)
  sub : Bool × Bool × Bool × Bool := (false, false, false, false)
  file_mode : List Char × List Char × List Char :=
    (List.replicate 6 (Char.ofNat 0), List.replicate 6 (Char.ofNat 0),
     List.replicate 6 (Char.ofNat 0))
  object_name : String × String := ("", "")
  path : String := ""
  score : Char × Nat := (Char.ofNat 0, 0)
  orig_path : String := ""
  stage1 : String × List Char := ("", List.replicate 6 (Char.ofNat 0))
  stage2 : String × List Char := ("", List.replicate 6 (Char.ofNat 0))
  stage3 : String × List Char := ("", List.replicate 6 (Char.ofNat 0))
deriving DecidableEq, Repr

/-- Git status data (`struct Status`). -/
structure Status where
  branch : String × String := ("", "")
  upstream : String × Nat × Nat := ("", 0, 0)
  changed : List Entry := []
  renamed : List Entry := []
  untracked : List String := []
  ignored : List String := []
deriving DecidableEq, Repr

/-- `Entry::new()`. -/
def Entry.new : Entry := {}

/-- `Status::new()`. -/
def Status.new : Status := {}

/-- `Status::branch_oid`. -/
def Status.branch_oid (st : Status) : String := st.branch.1

/-- `Status::branch_head`. -/
def Status.branch_head (st : Status) : String := st.branch.2

/-- `Status::upstream_branch`. -/
def Status.upstream_branch (st : Status) : Option String :=
  if st.upstream.1.isEmpty then none else some st.upstream.1

/-- `Status::upstream_behind`. -/
def Status.upstream_behind (st : Status) : Option Nat :=
  if st.upstream.1.isEmpty then none else some st.upstream.2.1

/-- `Status::upstream_ahead`. -/
def Status.upstream_ahead (st : Status) : Option Nat :=
  if st.upstream.1.isEmpty then none else some st.upstream.2.2

/-- `Entry::is_changed`. -/
def Entry.is_changed (e : Entry) : Bool := e.format == '1'

/-- `Entry::is_renamed`. -/
def Entry.is_renamed (e : Entry) : Bool := e.format == '2' && e.score.1 == 'R'

/-- `Entry::is_copied`. -/
def Entry.is_copied (e : Entry) : Bool := e.format == '2' && e.score.1 == 'C'

/-- `Entry::is_unmerged`. -/
def Entry.is_unmerged (e : Entry) : Bool := e.format == 'u'

/-- The `'1'` arm of `Entry::try_from`: `cs` is the iterator after the
format char and the following (unchecked) separator char. -/
def entryChanged (cs : List Char) : Except ParseErr Entry :=
  match take2 cs with
  | .error e => .error e
  | .ok (xy, cs) =>
  match nextc cs with
  | .error e => .error e
  | .ok (_, cs) =>
  match take4 cs with
  | .error e => .error e
  | .ok (s4, cs) =>
  match nextc cs with
  | .error e => .error e
  | .ok (_, cs) =>
  match takeMode cs with
  | .error e => .error e
  | .ok (m0, cs) =>
  match takeMode cs with
  | .error e => .error e
  | .ok (m1, cs) =>
  match takeMode cs with
  | .error e => .error e
  | .ok (m2, cs) =>
  let hH := takeNonWS cs
  let hI := takeNonWS hH.2
  .ok { format := '1', status := xy,
        sub := (s4.1 == 'S', s4.2.1 == 'C', s4.2.2.1 == 'M', s4.2.2.2 == 'U'),
        file_mode := (m0, m1, m2),
        object_name := (String.mk hH.1, String.mk hI.1),
        path := String.mk hI.2 }

/-- The `'2'` arm of `Entry::try_from`. -/
def entryRenamed (cs : List Char) : Except ParseErr Entry :=
  match take2 cs with
  | .error e => .error e
  | .ok (xy, cs) =>
  match nextc cs with
  | .error e => .error e
  | .ok (_, cs) =>
  match take4 cs with
  | .error e => .error e
  | .ok (s4, cs) =>
  match nextc cs with
  | .error e => .error e
  | .ok (_, cs) =>
  match takeMode cs with
  | .error e => .error e
  | .ok (m0, cs) =>
  match takeMode cs with
  | .error e => .error e
  | .ok (m1, cs) =>
  match takeMode cs with
  | .error e => .error e
  | .ok (m2, cs) =>
  let hH := takeNonWS cs
  let hI := takeNonWS hH.2
  match nextc hI.2 with
  | .error e => .error e
  | .ok (sc, cs) =>
  let tok := takeNonWS cs
  match rsParseU8 tok.1 with
  | none => .error .malformed
  | some n =>
  let pathP := takeNonWS tok.2
  .ok { format := '2', status := xy,
        sub := (s4.1 == 'S', s4.2.1 == 'C', s4.2.2.1 == 'M', s4.2.2.2 == 'U'),
        file_mode := (m0, m1, m2),
        object_name := (String.mk hH.1, String.mk hI.1),
        score := (sc, n),
        path := String.mk pathP.1,
        orig_path := String.mk pathP.2 }

/-- The `'u'` arm of `Entry::try_from`. -/
def entryUnmerged (cs : List Char) : Except ParseErr Entry :=
  match take2 cs with
  | .error e => .error e
  | .ok (xy, cs) =>
  match nextc cs with
  | .error e => .error e
  | .ok (_, cs) =>
  match take4 cs with
  | .error e => .error e
  | .ok (s4, cs) =>
  match nextc cs with
  | .error e => .error e
  | .ok (_, cs) =>
  match takeMode cs with
  | .error e => .error e
  | .ok (fm1, cs) =>
  match takeMode cs with
  | .error e => .error e
  | .ok (fm2, cs) =>
  match takeMode cs with
  | .error e => .error e
  | .ok (fm3, cs) =>
  match takeMode cs with
  | .error e => .error e
  | .ok (mW, cs) =>
  let h1 := takeNonWS cs
  let h2 := takeNonWS h1.2
  let h3 := takeNonWS h2.2
  let pathP := takeNonWS h3.2
  .ok { format := 'u', status := xy,
        sub := (s4.1 == 'S', s4.2.1 == 'C', s4.2.2.1 == 'M', s4.2.2.2 == 'U'),
        file_mode := (List.replicate 6 (Char.ofNat 0),
                      List.replicate 6 (Char.ofNat 0), mW),
        stage1 := (String.mk h1.1, fm1),
        stage2 := (String.mk h2.1, fm2),
        stage3 := (String.mk h3.1, fm3),
        path := String.mk pathP.1 }

/-- `Entry::try_from(&str)`: parse an entry line as printed by git. -/
def Entry.try_from (txt : List Char) : Except ParseErr Entry :=
  match nextc txt with
  | .error e => .error e
  | .ok (format, cs) =>
  match nextc cs with
  | .error e => .error e
  | .ok (_, cs) =>
  if format = '1' then entryChanged cs
  else if format = '2' then entryRenamed cs
  else if format = 'u' then entryUnmerged cs
  else if format = '?' then .ok { format := '?', path := String.mk (takeNonWS cs).1 }
  else if format = '!' then .ok { format := '!', path := String.mk (takeNonWS cs).1 }
  else .error .badFormat

/-- The `"branch.ab"` arm of `Status::try_from`: `cs` is the iterator after
the `branch.ab` token. -/
def branchAB (st : Status) (cs : List Char) : Except ParseErr Status :=
  match nextc cs with
  | .error e => .error e
  | .ok (c1, cs) =>
  if c1 = '+' then
    let t1 := takeNonWS cs
    match rsParseU32 t1.1 with
    | none => .error .malformed
    | some a =>
      match nextc t1.2 with
      | .error e => .error e
      | .ok (c2, cs2) =>
      if c2 = '-' then
        let t2 := takeNonWS cs2
        match rsParseU32 t2.1 with
        | none => .error .malformed
        | some b => .ok { st with upstream := (st.upstream.1, a, b) }
      else .error .malformed
  else .error .malformed

/-- One iteration of the line loop in `Status::try_from`: dispatch on the
line's first character and update the accumulated status. -/
def statusLine (st : Status) (line : List Char) : Except ParseErr Status :=
  match line with
  | [] => .ok st
  | c :: cs =>
    if c = '#' then
      match nextc cs with
      | .error e => .error e
      | .ok (_, cs) =>
      let infoP := takeNonWS cs
      let info := String.mk infoP.1
      let cs := infoP.2
      if info = "branch.oid" then
        .ok { st with branch := (String.mk (takeNonWS cs).1, st.branch.2) }
      else if info = "branch.head" then
        .ok { st with branch := (st.branch.1, String.mk (takeNonWS cs).1) }
      else if info = "branch.upstream" then
        .ok { st with upstream := (String.mk (takeNonWS cs).1, st.upstream.2.1, st.upstream.2.2) }
      else if info = "branch.ab" then branchAB st cs
      else .error .unknownInfo
    else if c = '1' then
      match Entry.try_from line with
      | .error e => .error e
      | .ok en => .ok { st with changed := st.changed ++ [en] }
    else if c = '2' then
      match Entry.try_from line with
      | .error e => .error e
      | .ok en => .ok { st with renamed := st.renamed ++ [en] }
    else if c = '?' then
      match nextc cs with
      | .error e => .error e
      | .ok (_, cs) => .ok { st with untracked := st.untracked ++ [String.mk (takeNonWS cs).1] }
    else if c = '!' then
      match nextc cs with
      | .error e => .error e
      | .ok (_, cs) => .ok { st with ignored := st.ignored ++ [String.mk (takeNonWS cs).1] }
    else .error .unknownMarker

/-- The line loop of `Status::try_from`. -/
def statusLines (st : Status) : List (List Char) → Except ParseErr Status
  | [] => .ok st
  | l :: ls =>
    match statusLine st l with
    | .error e => .error e
    | .ok st' => statusLines st' ls

/-- `Status::try_from(&str)`: parse captured output text from git status. -/
def Status.try_from (txt : List Char) : Except ParseErr Status :=
  statusLines Status.new (rsLines txt)


/-! ## Helper lemmas -/

theorem takeNonWS_all (l : List Char) (h : ∀ c ∈ l, rsIsWhitespace c = false) :
    takeNonWS l = (l, []) := by
  induction l with
  | nil => rfl
  | cons c cs ih =>
    have hc : rsIsWhitespace c = false := h c (List.mem_cons_self c cs)
    have ih' := ih (fun x hx => h x (List.mem_cons_of_mem c hx))
    simp [takeNonWS, hc, ih']

theorem takeNonWS_append (tok rest : List Char)
    (h : ∀ c ∈ tok, rsIsWhitespace c = false) :
    takeNonWS (tok ++ ' ' :: rest) = (tok, rest) := by
  induction tok with
  | nil => simp [takeNonWS]; decide
  | cons c cs ih =>
    have hc : rsIsWhitespace c = false := h c (List.mem_cons_self c cs)
    have ih' := ih (fun x hx => h x (List.mem_cons_of_mem c hx))
    simp [takeNonWS, hc, ih']

theorem digit_not_ws (c : Char) (h : c.isDigit = true) :
    rsIsWhitespace c = false := by
  have h1 : 48 ≤ c.toNat ∧ c.toNat ≤ 57 := by
    simp [Char.isDigit, decide_eq_true_eq] at h
    obtain ⟨h1, h2⟩ := h
    exact ⟨h1, h2⟩
  simp [rsIsWhitespace]
  omega

theorem rsParseUInt_digits (bound : Nat) (ds : List Char) (h1 : ds ≠ [])
    (h2 : ∀ c ∈ ds, c.isDigit = true) (h3 : digitsVal ds ≤ bound) :
    rsParseUInt bound ds = some (digitsVal ds) := by
  have hplus : stripPlus ds = ds := by
    cases ds with
    | nil => rfl
    | cons c cs =>
      have hc : c.isDigit = true := h2 c (List.mem_cons_self c cs)
      have : c ≠ '+' := by
        intro hceq
        rw [hceq] at hc
        simp [Char.isDigit] at hc
      simp [stripPlus, this]
  have hne : ds.isEmpty = false := by
    cases ds with
    | nil => exact absurd rfl h1
    | cons c cs => rfl
  have hall : ds.all Char.isDigit = true := by
    rw [List.all_eq_true]
    exact h2
  simp [rsParseUInt, hplus, hne, hall, h3]

theorem upstream_accessors_iff (s : Status) :
    (s.upstream_behind.isSome ↔ s.upstream_branch.isSome) ∧
    (s.upstream_ahead.isSome ↔ s.upstream_branch.isSome) := by
  by_cases h : s.upstream.1.isEmpty <;>
    simp [Status.upstream_behind, Status.upstream_ahead, Status.upstream_branch, h]

/-! ## Claims -/

/-- C9: Parsing the empty input text succeeds and yields a Report equal
to the all-defaults empty `Status` (empty branch fields, no upstream,
empty `changed`, `renamed`, `untracked`, `ignored`). -/
theorem claim_C9 :
    Status.try_from "".data = .ok Status.new ∧
    Status.new = ({ branch := ("", ""), upstream := ("", 0, 0), changed := [],
                    renamed := [], untracked := [], ignored := [] } : Status) :=
  ⟨rfl, rfl⟩

/-- C5: For every successfully parsed report, `upstream_behind` and
`upstream_ahead` return `some` iff `upstream_branch` returns `some`. -/
theorem claim_C5 (txt : List Char) (st : Status)
    (h : Status.try_from txt = .ok st) :
    (st.upstream_behind.isSome ↔ st.upstream_branch.isSome) ∧
    (st.upstream_ahead.isSome ↔ st.upstream_branch.isSome) :=
  upstream_accessors_iff st

/-- Witness for C5 at the empty input. -/
theorem claim_C5_witness :
    (Status.new.upstream_behind.isSome ↔ Status.new.upstream_branch.isSome) ∧
    (Status.new.upstream_ahead.isSome ↔ Status.new.upstream_branch.isSome) :=
  claim_C5 "".data Status.new rfl

/-- C4 (counterexample): for the untracked line `? foo bar` the decoded
path is `foo`, not the whole remainder `foo bar` — a path containing a
space IS truncated at that space, refuting the claim. -/
theorem claim_C4_counterexample :
    (Status.try_from "? foo bar".data).toOption.map Status.untracked = some ["foo"] ∧
    (["foo"] : List String) ≠ ["foo bar"] := by
  constructor
  · rfl
  · decide

/-- C4 (amended): for every `?` or `!` line, the decoded path is the
longest whitespace-free prefix of the remainder after the marker and one
separating character; anything from the first whitespace character on is
discarded, with no further validation. -/
theorem claim_C4 (st : Status) (rest : List Char) :
    statusLine st ('?' :: ' ' :: rest) =
      .ok { st with untracked := st.untracked ++ [String.mk (takeNonWS rest).1] } ∧
    statusLine st ('!' :: ' ' :: rest) =
      .ok { st with ignored := st.ignored ++ [String.mk (takeNonWS rest).1] } :=
  ⟨rfl, rfl⟩

/-- C6: in each of the marker-1, marker-2 and marker-u decoders the four
submodule-code characters map positionally to
`(is_submodule, commit_changed, has_tracked_changes, has_untracked_changes)`
by equality against `S`, `C`, `M`, `U`; every four-character combination
is accepted. -/
theorem claim_C6 (c1 c2 c3 c4 : Char) :
    (Entry.try_from ("1 A. ".data ++ c1 :: c2 :: c3 :: c4 ::
        " 000000 100644 100644 aaaa bbbb f.txt".data)).map Entry.sub
      = .ok (c1 == 'S', c2 == 'C', c3 == 'M', c4 == 'U') ∧
    (Entry.try_from ("2 R. ".data ++ c1 :: c2 :: c3 :: c4 ::
        " 100644 100644 100644 aaaa bbbb R100 f.txt\tg.txt".data)).map Entry.sub
      = .ok (c1 == 'S', c2 == 'C', c3 == 'M', c4 == 'U') ∧
    (Entry.try_from ("u UU ".data ++ c1 :: c2 :: c3 :: c4 ::
        " 000000 100644 100644 100755 h1 h2 h3 f.txt".data)).map Entry.sub
      = .ok (c1 == 'S', c2 == 'C', c3 == 'M', c4 == 'U') :=
  ⟨rfl, rfl, rfl⟩

/-- A line starting with a character that is no known marker makes the
line decoder fail with the unknown-marker error, whatever the
accumulated status. -/
theorem statusLine_unknown (st : Status) (c : Char) (rest : List Char)
    (h : c ∉ (['#', '1', '2', 'u', '?', '!'] : List Char)) :
    statusLine st (c :: rest) = .error .unknownMarker := by
  simp only [List.mem_cons, List.not_mem_nil, or_false, not_or] at h
  obtain ⟨h1, h2, h3, _, h5, h6⟩ := h
  simp [statusLine, h1, h2, h3, h5, h6]

/-- If some line of the input fails for every accumulated status, the
whole line loop fails. -/
theorem statusLines_error_of_mem (l : List Char) (lines : List (List Char))
    (hl : l ∈ lines) (herr : ∀ st : Status, ∃ e, statusLine st l = .error e) :
    ∀ st : Status, ∃ e, statusLines st lines = .error e := by
  induction hl with
  | head as =>
    intro st
    obtain ⟨e, he⟩ := herr st
    exact ⟨e, by simp [statusLines, he]⟩
  | tail a hmem ih =>
    intro st
    cases hae : statusLine st a with
    | error e => exact ⟨e, by simp [statusLines, hae]⟩
    | ok st' =>
      obtain ⟨e, he⟩ := ih st'
      exact ⟨e, by simp [statusLines, hae, he]⟩

/-- C8: a non-empty line whose first character is none of `#`, `1`, `2`,
`u`, `?`, `!` makes the line decoder fail deterministically with the
unknown-marker error (never a panic, never a silent drop); any input
text containing such a line never parses successfully; and the full
parse of `0 foo.txt` fails with the unknown-marker error. -/
theorem claim_C8 :
    (∀ (st : Status) (c : Char) (rest : List Char),
        c ∉ (['#', '1', '2', 'u', '?', '!'] : List Char) →
        statusLine st (c :: rest) = .error .unknownMarker) ∧
    (∀ (txt : List Char) (c : Char) (rest : List Char),
        (c :: rest) ∈ rsLines txt →
        c ∉ (['#', '1', '2', 'u', '?', '!'] : List Char) →
        ∀ st : Status, Status.try_from txt ≠ .ok st) ∧
    Status.try_from "0 foo.txt".data = .error .unknownMarker := by
  refine ⟨statusLine_unknown, ?_, rfl⟩
  intro txt c rest hmem hc st hok
  obtain ⟨e, he⟩ := statusLines_error_of_mem (c :: rest) (rsLines txt) hmem
    (fun st' => ⟨.unknownMarker, statusLine_unknown st' c rest hc⟩) Status.new
  rw [Status.try_from, he] at hok
  cases hok

/-- Witness for C8 at the line `0 foo.txt`. -/
theorem claim_C8_witness :
    statusLine Status.new ('0' :: " foo.txt".data) = .error .unknownMarker :=
  claim_C8.1 Status.new '0' " foo.txt".data (by decide)

/-- C10: in a marker-2 line the rename/copy-marker character is accepted
regardless of its value and stored verbatim in the entry; only the score
digits after it are validated. -/
theorem claim_C10 (sc : Char) :
    (Entry.try_from ("2 R. N... 100644 100644 100644 aaaa bbbb ".data ++
        sc :: "50 f.txt\tg.txt".data)).map (fun e => e.score)
      = .ok (sc, 50) :=
  rfl

/-- C1 (code evaluation): a well-formed unmerged (`u`) line is fully
decodable by the entry decoder, yet the report parser rejects the very
same line with the unknown-marker error — the report-level dispatch has
no arm for `u`, so any report containing an unmerged entry fails to
parse. -/
theorem claim_C1_code_eval :
    Entry.try_from ("u MM N... 000000 100644 100644 100755 0000000000000000000000000000000000000000 288d723fce8678bcdcb40bfa844a6f815d625661 288d723fce8678bcdcb40bfa844a6f815d625661 LICENSE").data
      = .ok { format := 'u', status := ('M', 'M'),
              sub := (false, false, false, false),
              file_mode := (List.replicate 6 (Char.ofNat 0),
                            List.replicate 6 (Char.ofNat 0), "100755".data),
              stage1 := ("0000000000000000000000000000000000000000", "000000".data),
              stage2 := ("288d723fce8678bcdcb40bfa844a6f815d625661", "100644".data),
              stage3 := ("288d723fce8678bcdcb40bfa844a6f815d625661", "100644".data),
              path := "LICENSE" } ∧
    Status.try_from ("u MM N... 000000 100644 100644 100755 0000000000000000000000000000000000000000 288d723fce8678bcdcb40bfa844a6f815d625661 288d723fce8678bcdcb40bfa844a6f815d625661 LICENSE").data
      = .error .unknownMarker :=
  ⟨rfl, rfl⟩

/-- C3 (counterexample): a marker-1 line in which every separator
position holds a non-space character (`X`, `Y`, `Z`, `W`) decodes
successfully — the claim that a non-space character after a fixed-width
field fails with `MalformedLine` is false. -/
theorem claim_C3_counterexample :
    Entry.try_from "1 A.XN...Y000000Z100644W100644 aaa bbb p".data
      = .ok { format := '1', status := ('A', '.'),
              sub := (false, false, false, false),
              file_mode := ("000000".data, "100644".data, "100644".data),
              object_name := ("aaa", "bbb"), path := "p" } :=
  rfl

/-- C3 (amended): a fixed-width field truncated by the end of the line
(or missing its trailing separator at end of line) fails with
`MalformedLine`; but the character in a separator position is consumed
without being checked, so any characters there — space or not — leave
decoding successful with each field read at its fixed offset. -/
theorem claim_C3 :
    (∀ s0 s1 s2 s3 s4 s5 : Char,
      Entry.try_from ('1' :: s0 :: 'A' :: '.' :: s1 :: 'N' :: '.' :: '.' :: '.' :: s2 ::
          ("000000".data ++ s3 :: ("100644".data ++ s4 :: ("100644".data ++ s5 ::
          "aaa bbb p".data))))
        = .ok { format := '1', status := ('A', '.'),
                sub := (false, false, false, false),
                file_mode := ("000000".data, "100644".data, "100644".data),
                object_name := ("aaa", "bbb"), path := "p" }) ∧
    Entry.try_from "1 A".data = .error .malformed ∧
    Entry.try_from "1 MD SC".data = .error .malformed ∧
    Entry.try_from "1 A. N... 000".data = .error .malformed ∧
    Entry.try_from "1 A. N... 000000".data = .error .malformed ∧
    Entry.try_from "2 R. N... 100644 100644 100".data = .error .malformed ∧
    Entry.try_from "u MM N... 000000 100644 100".data = .error .malformed :=
  ⟨fun s0 s1 s2 s3 s4 s5 => rfl, rfl, rfl, rfl, rfl, rfl, rfl⟩

/-- Evaluation of the marker-2 decoder up to the similarity-score token:
with a concrete well-formed prefix, decoding is stuck exactly on the
numeric parse of the score token. -/
theorem score_stage (tok : List Char) :
    Entry.try_from ("2 R. N... 100644 100644 100644 aaaa bbbb R".data ++ (tok ++ (' ' :: "f.txt\tg.txt".data))) =
      (match rsParseU8 (takeNonWS (tok ++ (' ' :: "f.txt\tg.txt".data))).1 with
       | none => (.error .malformed : Except ParseErr Entry)
       | some n =>
         .ok { format := '2', status := ('R', '.'),
               sub := (false, false, false, false),
               file_mode := ("100644".data, "100644".data, "100644".data),
               object_name := ("aaaa", "bbbb"),
               score := ('R', n),
               path := String.mk (takeNonWS (takeNonWS (tok ++ (' ' :: "f.txt\tg.txt".data))).2).1,
               orig_path := String.mk (takeNonWS (takeNonWS (tok ++ (' ' :: "f.txt\tg.txt".data))).2).2 }) := by
  rfl

/-- C7: on a marker-2 line, decoding fails with the malformed-line error
exactly when the similarity-score token does not parse as an unsigned
8-bit number (non-numeric, or above 255), and succeeds storing the value
when it does; a nonempty all-digit token with value at most 255 always
parses. -/
theorem claim_C7 :
    (∀ tok : List Char, (∀ c ∈ tok, rsIsWhitespace c = false) →
      rsParseU8 tok = none →
      Entry.try_from ("2 R. N... 100644 100644 100644 aaaa bbbb R".data ++
          (tok ++ (' ' :: "f.txt\tg.txt".data))) = .error .malformed) ∧
    (∀ (tok : List Char) (n : Nat), (∀ c ∈ tok, rsIsWhitespace c = false) →
      rsParseU8 tok = some n →
      (Entry.try_from ("2 R. N... 100644 100644 100644 aaaa bbbb R".data ++
          (tok ++ (' ' :: "f.txt\tg.txt".data)))).map (fun e => e.score) = .ok ('R', n)) ∧
    (∀ ds : List Char, ds ≠ [] → (∀ c ∈ ds, c.isDigit = true) →
      digitsVal ds ≤ 255 → rsParseU8 ds = some (digitsVal ds)) := by
  refine ⟨?_, ?_, ?_⟩
  · intro tok hw hn
    rw [score_stage]
    simp [takeNonWS_append _ _ hw, hn]
  · intro tok n hw hs
    rw [score_stage]
    simp [takeNonWS_append _ _ hw, hs, Except.map]
  · intro ds h1 h2 h3
    exact rsParseUInt_digits 255 ds h1 h2 h3

/-- Witness for C7: score token `256` is rejected, `100` is accepted and
stored, `042` parses to 42. -/
theorem claim_C7_witness :
    Entry.try_from ("2 R. N... 100644 100644 100644 aaaa bbbb R".data ++
        ("256".data ++ (' ' :: "f.txt\tg.txt".data))) = .error .malformed ∧
    (Entry.try_from ("2 R. N... 100644 100644 100644 aaaa bbbb R".data ++
        ("100".data ++ (' ' :: "f.txt\tg.txt".data)))).map (fun e => e.score) = .ok ('R', 100) ∧
    rsParseU8 "042".data = some 42 :=
  ⟨claim_C7.1 "256".data (by decide) (by decide),
   claim_C7.2.1 "100".data 100 (by decide) (by decide),
   claim_C7.2.2 "042".data (by decide) (by decide) (by decide)⟩

/-- C2 (counterexample): for the full report of the claim (`branch.ab
+1 -0`, two `1` lines, two `?` lines), `upstream_ahead` returns
`some 0`, not `some 1` as the claim states — the `+`-prefixed number is
not returned by `upstream_ahead`. -/
theorem claim_C2_counterexample :
    (Status.try_from ("# branch.oid dbcbc3608451f09fffef8f31a2a54da54aa13a87\n# branch.head master\n# branch.upstream origin/master\n# branch.ab +1 -0\n1 A. N... 000000 100644 100644 0000000000000000000000000000000000000000 e47c0835424019d3cb9f3daf768eafbb2fd42044 Cargo.toml\n1 .M N... 100644 100644 100644 567578ae6981902a62d42f69599a1101e33a0bba 567578ae6981902a62d42f69599a1101e33a0bba README.md\n? LICENSE~\n? Makefile\n").data).toOption.map
        Status.upstream_ahead = some (some 0) ∧
    (some (some 0) : Option (Option Nat)) ≠ some (some 1) :=
  ⟨rfl, by decide⟩

/-- C2 (amended): for the full report of the claim, `changed` has length
2 and `untracked` length 2, but `upstream_ahead` returns `some 0` and
`upstream_behind` returns `some 1`; in general in a `branch.ab` line
`+<a> -<b>`, the `+`-prefixed number is stored in the field returned by
`upstream_behind` (the count the upstream is behind local) and the
`-`-prefixed number in the field returned by `upstream_ahead`. -/
theorem claim_C2 :
    (Status.try_from ("# branch.oid dbcbc3608451f09fffef8f31a2a54da54aa13a87\n# branch.head master\n# branch.upstream origin/master\n# branch.ab +1 -0\n1 A. N... 000000 100644 100644 0000000000000000000000000000000000000000 e47c0835424019d3cb9f3daf768eafbb2fd42044 Cargo.toml\n1 .M N... 100644 100644 100644 567578ae6981902a62d42f69599a1101e33a0bba 567578ae6981902a62d42f69599a1101e33a0bba README.md\n? LICENSE~\n? Makefile\n").data).toOption.map
        (fun s => (s.changed.length, s.untracked.length, s.upstream_ahead, s.upstream_behind))
      = some (2, 2, some 0, some 1) ∧
    (∀ (st : Status) (da db : List Char),
      da ≠ [] → (∀ c ∈ da, c.isDigit = true) → digitsVal da ≤ 4294967295 →
      db ≠ [] → (∀ c ∈ db, c.isDigit = true) → digitsVal db ≤ 4294967295 →
      branchAB st ('+' :: (da ++ (' ' :: ('-' :: db)))) =
        .ok { st with upstream := (st.upstream.1, digitsVal da, digitsVal db) }) := by
  constructor
  · rfl
  · intro st da db h1 h2 h3 h4 h5 h6
    have hwa : ∀ c ∈ da, rsIsWhitespace c = false := fun c hc => digit_not_ws c (h2 c hc)
    have hwb : ∀ c ∈ db, rsIsWhitespace c = false := fun c hc => digit_not_ws c (h5 c hc)
    have hpa : rsParseU32 da = some (digitsVal da) := rsParseUInt_digits _ _ h1 h2 h3
    have hpb : rsParseU32 db = some (digitsVal db) := rsParseUInt_digits _ _ h4 h5 h6
    simp [branchAB, nextc, takeNonWS_append _ _ hwa, takeNonWS_all _ hwb, hpa, hpb]

/-- Witness for C2 at `+1 -0`: the `+` count 1 lands in the field read
by `upstream_behind`, the `-` count 0 in the field read by
`upstream_ahead`. -/
theorem claim_C2_witness :
    branchAB Status.new ('+' :: (['1'] ++ (' ' :: ('-' :: ['0'])))) =
      .ok { Status.new with upstream := ("", 1, 0) } :=
  claim_C2.2 Status.new ['1'] ['0'] (by decide) (by decide) (by decide)
    (by decide) (by decide) (by decide)
